import Mathlib

/-
Verification of the image-intake-and-relay pipeline of the picture-repair
backend (server/server.js): multipart intake (multer), image optimization
(sharp resize/jpeg), external analysis call (OpenRouter fetch), result
materialization (sharp enhance + write), transient cleanup, and the two
HTTP endpoints POST /api/repair-image and GET /api/processed/:filename.

The effectful parts of the JavaScript code are embedded as pure functions
over explicit oracles: the outcome of the external fetch, the uuid drawn
for the artifact name, and injected faults of the fs.unlink / sharp.toFile
calls. Stores (the uploads directory and the processed directory) are
association lists from filename to content.
-/

namespace PictureRepair

/-- JSON scalar values appearing in the response bodies of server.js.
Fields whose value is the JavaScript `undefined` are dropped by
res.json/JSON.stringify, so they simply do not appear in the body list. -/
inductive JVal where
  | s (v : String)
  | b (v : Bool)
  deriving DecidableEq, Repr

/-- A serialized JSON object body: ordered field/value pairs. -/
abbrev JBody := List (String × JVal)

/-- An HTTP response as produced by res.status(...).json(...). -/
structure Response where
  status : Nat
  body : JBody
  deriving DecidableEq, Repr

/-- Content of an uploaded file as far as sharp is concerned: either a
decodable image with pixel dimensions, or bytes that fail to decode
(sharp raises an error carrying `errMsg`). -/
inductive Content where
  | image (width height : Nat)
  | notImage (errMsg : String)
  deriving DecidableEq, Repr

/-- Nearest-integer division: round (a / b) for b > 0, computed as
floor ((2a + b) / 2b).  This is the rounding sharp applies to the
non-binding dimension when scaling. -/
def roundDiv (a b : Nat) : Nat := (2 * a + b) / (2 * b)

/-- Semantics of sharp's resize(tw, th, fit: inside, withoutEnlargement):
if the source already fits inside the tw×th box it is left unchanged
(withoutEnlargement forbids upscaling); otherwise the image is scaled down
by the factor min(tw/w, th/h) < 1, the binding dimension landing exactly on
its bound and the other being rounded to the nearest integer (at least 1). -/
def sharpFitInside (tw th w h : Nat) : Nat × Nat :=
  if w ≤ tw ∧ h ≤ th then (w, h)
  else if tw * h ≤ th * w then
    (tw, max 1 (roundDiv (h * tw) w))
  else
    (max 1 (roundDiv (w * th) h), th)

/-- The re-encoded payload produced by imageToBase64 before base64
encoding: bounded dimensions and the fixed jpeg quality. -/
structure OptimizedPayload where
  width : Nat
  height : Nat
  quality : Nat
  deriving DecidableEq, Repr

/-- imageToBase64 of server.js: sharp(path).resize(1024, 1024,
fit inside, withoutEnlargement).jpeg(quality 85); on a sharp error the
function throws "Failed to process image: " followed by sharp's message. -/
def imageToBase64 (content : Content) : Except String OptimizedPayload :=
  match content with
  | .image w h =>
      .ok { width := (sharpFitInside 1024 1024 w h).1
            height := (sharpFitInside 1024 1024 w h).2
            quality := 85 }
  | .notImage m => .error ("Failed to process image: " ++ m)

/-- Outcome of the fetch to the OpenRouter endpoint, as an oracle:
either an HTTP response arrived (2xx and parsed into the expected chat
shape; non-2xx with its body text; or 2xx whose body failed to parse into
the expected shape, the json()/field access throwing with `msg`), or the
fetch itself rejected (network/timeout) with `msg`. -/
inductive UpstreamOutcome where
  | ok (content : String)
  | httpError (status : Nat) (bodyText : String)
  | parseError (msg : String)
  | netError (msg : String)
  deriving DecidableEq, Repr

/-- callOpenRouterAPI of server.js: on a non-ok response it throws
"OpenRouter API error: status - body"; every error escaping the inner
block is rewrapped by the catch as "AI processing failed: " ++ message. -/
def callOpenRouterAPI (u : UpstreamOutcome) : Except String String :=
  match u with
  | .ok c => .ok c
  | .httpError st body =>
      .error ("AI processing failed: OpenRouter API error: "
              ++ toString st ++ " - " ++ body)
  | .parseError m => .error ("AI processing failed: " ++ m)
  | .netError m => .error ("AI processing failed: " ++ m)

/-- A materialized artifact as written by processImageWithAI: dimensions
after the 2048-bounded resize, the sharpen pass, the modulate parameters
(brightness 1.1, saturation 1.2, hue 0 — recorded as percentages), and
the jpeg quality 95. -/
structure Artifact where
  width : Nat
  height : Nat
  sharpened : Bool
  brightnessPct : Nat
  saturationPct : Nat
  hueShift : Nat
  quality : Nat
  deriving DecidableEq, Repr

/-- The value processImageWithAI resolves with: the generated output
filename and the analysis text passed through. -/
structure MatResult where
  filename : String
  analysis : String
  deriving DecidableEq, Repr

/-- processImageWithAI of server.js: output filename
"processed-" ++ uuid ++ ".jpg"; sharp(inputPath).resize(2048, 2048,
fit inside, withoutEnlargement).sharpen().modulate(brightness 1.1,
saturation 1.2, hue 0).jpeg(quality 95).toFile(outputPath).  A sharp
decode failure or a write failure (oracle `writeErr`) throws
"Image processing failed: " ++ message.  On success the artifact is
persisted into the processed store under the fresh filename. -/
def processImageWithAI (content : Content) (uuid : String) (analysis : String)
    (writeErr : Option String) (processed : List (String × Artifact)) :
    Except String (MatResult × List (String × Artifact)) :=
  match content with
  | .notImage m => .error ("Image processing failed: " ++ m)
  | .image w h =>
    match writeErr with
    | some m => .error ("Image processing failed: " ++ m)
    | none =>
        .ok ({ filename := "processed-" ++ uuid ++ ".jpg", analysis := analysis },
             ("processed-" ++ uuid ++ ".jpg",
              { width := (sharpFitInside 2048 2048 w h).1
                height := (sharpFitInside 2048 2048 w h).2
                sharpened := true
                brightnessPct := 110
                saturationPct := 120
                hueShift := 0
                quality := 95 }) :: processed)

/-- The per-request oracles: the external fetch outcome, the uuid drawn
for the artifact filename, an injected sharp.toFile failure, and injected
failures of the first and second fs.unlink call of the request (none
means the unlink succeeds when the file exists). -/
structure Oracles where
  upstream : UpstreamOutcome
  uuid : String
  writeErr : Option String
  unlinkFault1 : Option String
  unlinkFault2 : Option String
  deriving DecidableEq, Repr

/-- Observable outcome of one POST /api/repair-image request: the HTTP
response, whether an upload was stored in the transient store, whether the
transient file is still present when the request concludes, how many
fs.unlink calls were issued and how many actually removed the file,
whether imageToBase64 ran, and the processed store afterwards. -/
structure RunResult where
  response : Response
  fileStored : Bool
  filePresent : Bool
  unlinkCalls : Nat
  deletions : Nat
  optimizeRan : Bool
  processed : List (String × Artifact)
  deriving DecidableEq, Repr

/-- The JSON error body built in the catch block of the repair handler:
error and message always; details only when NODE_ENV is "development"
(res.json drops the field when its value is undefined). -/
def errorBody (m env stack : String) : JBody :=
  [("error", .s "Image processing failed"), ("message", .s m)]
    ++ (if env = "development" then [("details", .s stack)] else [])

/-- The catch block of the repair handler, entered with error message `m`
while the transient file is still present: it attempts fs.unlink once
(swallowing any cleanup error) and responds 500 with the error body.
`callsBefore` counts unlink calls already issued on the way here. -/
def repairCatch (m env stack : String) (o : Oracles)
    (processed : List (String × Artifact)) (callsBefore : Nat) : RunResult :=
  { response := { status := 500, body := errorBody m env stack }
    fileStored := true
    filePresent := o.unlinkFault2.isSome
    unlinkCalls := callsBefore + 1
    deletions := if o.unlinkFault2.isSome then 0 else 1
    optimizeRan := true
    processed := processed }

/-- The try block of the POST /api/repair-image handler for a stored
upload: optimize, call the external API, materialize, unlink the
transient input, respond 200; the first error jumps to the catch block. -/
def repairHandler (origName : String) (content : Content) (o : Oracles)
    (env stack : String) (processed0 : List (String × Artifact)) : RunResult :=
  match imageToBase64 content with
  | .error m => repairCatch m env stack o processed0 0
  | .ok _b64 =>
    match callOpenRouterAPI o.upstream with
    | .error m => repairCatch m env stack o processed0 0
    | .ok analysis =>
      match processImageWithAI content o.uuid analysis o.writeErr processed0 with
      | .error m => repairCatch m env stack o processed0 0
      | .ok (mat, processed1) =>
        match o.unlinkFault1 with
        | some m => repairCatch m env stack o processed1 1
        | none =>
            { response :=
                { status := 200
                  body := [("success", .b true),
                           ("processedImageUrl", .s ("/api/processed/" ++ mat.filename)),
                           ("analysis", .s mat.analysis),
                           ("originalFilename", .s origName),
                           ("processedFilename", .s mat.filename)] }
              fileStored := true
              filePresent := false
              unlinkCalls := 1
              deletions := 1
              optimizeRan := true
              processed := processed1 }

/-- One incoming request to POST /api/repair-image: either the multipart
form carried no file, or it carried one file with its declared media type,
byte size, original name and content. -/
inductive UploadReq where
  | noFile
  | withFile (mimetype : String) (size : Nat) (originalname : String) (content : Content)
  deriving DecidableEq, Repr

/-- Prefix test on character lists, by structural recursion. -/
def listIsPrefix : List Char → List Char → Bool
  | [], _ => true
  | _ :: _, [] => false
  | a :: as, b :: bs => a == b && listIsPrefix as bs

/-- Semantics of the fileFilter test mimetype.startsWith("image/"): the
characters of "image/" are a prefix of the declared media type. -/
def startsWithImage (mt : String) : Bool := listIsPrefix "image/".data mt.data

/-- The multer fileSize limit of server.js: 10 * 1024 * 1024 bytes. -/
def maxFileSize : Nat := 10 * 1024 * 1024

/-- Full processing of one POST /api/repair-image request, including the
multer middleware and the express error-handling middleware.  A media type
not starting with "image/" makes the fileFilter pass a plain Error to
next(); that error is not a multer.MulterError, so the error middleware
answers 500 "Internal server error".  An accepted media type whose content
exceeds the fileSize limit raises the MulterError LIMIT_FILE_SIZE, which
the middleware maps to 400 "File too large"; multer removes the partial
file, so nothing is stored.  Otherwise the file is stored transiently and
the route handler runs.  A request without a file reaches the handler,
which answers 400 "No image file provided". -/
def processRepairRequest (req : UploadReq) (o : Oracles) (env stack : String)
    (processed0 : List (String × Artifact)) : RunResult :=
  match req with
  | .noFile =>
      { response :=
          { status := 400
            body := [("error", .s "No image file provided"),
                     ("message", .s "Please upload an image file")] }
        fileStored := false
        filePresent := false
        unlinkCalls := 0
        deletions := 0
        optimizeRan := false
        processed := processed0 }
  | .withFile mt sz name content =>
      if startsWithImage mt then
        if maxFileSize < sz then
          { response :=
              { status := 400
                body := [("error", .s "File too large"),
                         ("message", .s "Image file must be smaller than 10MB")] }
            fileStored := false
            filePresent := false
            unlinkCalls := 0
            deletions := 0
            optimizeRan := false
            processed := processed0 }
        else
          repairHandler name content o env stack processed0
      else
        { response :=
            { status := 500
              body := [("error", .s "Internal server error"),
                       ("message", .s "Something went wrong processing your request")] }
          fileStored := false
          filePresent := false
          unlinkCalls := 0
          deletions := 0
          optimizeRan := false
          processed := processed0 }

/-- The first error message raised inside the try block of the repair
handler, if any: optimize failure, external-call failure, materialization
failure, or the success-path unlink failing. -/
def stepFailure (content : Content) (o : Oracles) : Option String :=
  match imageToBase64 content with
  | .error m => some m
  | .ok _ =>
    match callOpenRouterAPI o.upstream with
    | .error m => some m
    | .ok analysis =>
      match processImageWithAI content o.uuid analysis o.writeErr [] with
      | .error m => some m
      | .ok _ => o.unlinkFault1

/-- Result of one GET /api/processed/:filename request: status, the two
headers set on the success path, the artifact streamed by res.sendFile
(if any), and the JSON body of the 404 path. -/
structure RetrievalResult where
  status : Nat
  contentType : Option String
  cacheControl : Option String
  sentArtifact : Option Artifact
  jsonBody : JBody
  deriving DecidableEq, Repr

/-- The GET /api/processed/:filename handler of server.js: fs.access then
res.sendFile with Content-Type image/jpeg and Cache-Control public,
max-age=86400 when the file exists in the processed store; any error
(in particular a missing file) yields the 404 JSON body. -/
def getProcessed (processed : List (String × Artifact)) (filename : String) :
    RetrievalResult :=
  match processed.lookup filename with
  | some art =>
      { status := 200
        contentType := some "image/jpeg"
        cacheControl := some "public, max-age=86400"
        sentArtifact := some art
        jsonBody := [] }
  | none =>
      { status := 404
        contentType := none
        cacheControl := none
        sentArtifact := none
        jsonBody := [("error", .s "Image not found"),
                     ("message", .s "The requested processed image does not exist")] }

/-- Rounding division is bounded by c as soon as the numerator stays below
(c+1) times the denominator. -/
theorem roundDiv_le (a b c : Nat) (hb : 0 < b)
    (h : 2 * a + b < (c + 1) * (2 * b)) : roundDiv a b ≤ c := by
  have h2 : 0 < 2 * b := by omega
  have := (Nat.div_lt_iff_lt_mul h2).mpr h
  exact Nat.lt_succ_iff.mp this

/-- sharp's fit-inside resize with withoutEnlargement never exceeds the
target box and never enlarges either dimension of the source. -/
theorem sharpFitInside_le (tw th w h : Nat) (htw : 0 < tw) (hth : 0 < th)
    (hw : 0 < w) (hh : 0 < h) :
    (sharpFitInside tw th w h).1 ≤ tw ∧ (sharpFitInside tw th w h).2 ≤ th ∧
    (sharpFitInside tw th w h).1 ≤ w ∧ (sharpFitInside tw th w h).2 ≤ h := by
  unfold sharpFitInside
  by_cases h0 : w ≤ tw ∧ h ≤ th
  · rw [if_pos h0]
    exact ⟨h0.1, h0.2, le_refl w, le_refl h⟩
  · rw [if_neg h0]
    by_cases h1 : tw * h ≤ th * w
    · rw [if_pos h1]
      have hwtw : tw < w := by
        by_contra hle
        push_neg at hle
        have hth2 : th < h := by
          rcases Nat.lt_or_ge th h with hlt | hge
          · exact hlt
          · exact absurd ⟨hle, hge⟩ h0
        have e1 : th * w ≤ th * tw := Nat.mul_le_mul (le_refl th) hle
        have e2 : tw * (th + 1) ≤ tw * h := Nat.mul_le_mul (le_refl tw) hth2
        nlinarith
      have hb1 : roundDiv (h * tw) w ≤ th := by
        refine roundDiv_le _ _ _ hw ?_
        have e : (th + 1) * (2 * w) = 2 * (th * w) + 2 * w := by ring
        have e2 : 2 * (h * tw) = 2 * (tw * h) := by ring
        rw [e, e2]
        have e3 : 2 * (tw * h) ≤ 2 * (th * w) := Nat.mul_le_mul (le_refl 2) h1
        linarith
      have hb2 : roundDiv (h * tw) w ≤ h := by
        refine roundDiv_le _ _ _ hw ?_
        have e : (h + 1) * (2 * w) = 2 * (h * w) + 2 * w := by ring
        rw [e]
        have e3 : h * tw ≤ h * w := Nat.mul_le_mul (le_refl h) (le_of_lt hwtw)
        linarith
      exact ⟨le_refl tw, max_le hth hb1, le_of_lt hwtw, max_le hh hb2⟩
    · rw [if_neg h1]
      push_neg at h1
      have hhth : th < h := by
        by_contra hle
        push_neg at hle
        have hwtw : tw < w := by
          rcases Nat.lt_or_ge tw w with hlt | hge
          · exact hlt
          · exact absurd ⟨hge, hle⟩ h0
        have e1 : tw * h ≤ tw * th := Nat.mul_le_mul (le_refl tw) hle
        have e2 : th * (tw + 1) ≤ th * w := Nat.mul_le_mul (le_refl th) hwtw
        nlinarith
      have hb1 : roundDiv (w * th) h ≤ tw := by
        refine roundDiv_le _ _ _ hh ?_
        have e : (tw + 1) * (2 * h) = 2 * (tw * h) + 2 * h := by ring
        have e2 : 2 * (w * th) = 2 * (th * w) := by ring
        rw [e, e2]
        have e3 : 2 * (th * w) ≤ 2 * (tw * h) := Nat.mul_le_mul (le_refl 2) (le_of_lt h1)
        linarith
      have hb2 : roundDiv (w * th) h ≤ w := by
        refine roundDiv_le _ _ _ hh ?_
        have e : (w + 1) * (2 * h) = 2 * (w * h) + 2 * h := by ring
        rw [e]
        have e3 : w * th ≤ w * h := Nat.mul_le_mul (le_refl w) (le_of_lt hhth)
        linarith
      exact ⟨max_le htw hb1, le_refl th, max_le hw hb2, le_of_lt hhth⟩

/-- Looking up "error" in the catch-block body always finds the fixed
error label. -/
theorem errorBody_lookup_error (m env stack : String) :
    (errorBody m env stack).lookup "error" = some (JVal.s "Image processing failed") := rfl

/-- Looking up "message" in the catch-block body always finds the
pipeline error's message. -/
theorem errorBody_lookup_message (m env stack : String) :
    (errorBody m env stack).lookup "message" = some (JVal.s m) := rfl

/-- Looking up "details" in the catch-block body finds the stack exactly
when NODE_ENV is "development". -/
theorem errorBody_lookup_details (m env stack : String) :
    (errorBody m env stack).lookup "details" =
      if env = "development" then some (JVal.s stack) else none := by
  by_cases hd : env = "development"
  · subst hd; rfl
  · rw [if_neg hd]
    unfold errorBody
    rw [if_neg hd]
    rfl

/-- A "details" field present in the catch-block body implies a
non-production NODE_ENV. -/
theorem errorBody_details_nonprod (m env stack : String)
    (h : (errorBody m env stack).lookup "details" ≠ none) : env ≠ "production" := by
  rw [errorBody_lookup_details] at h
  by_cases hd : env = "development"
  · subst hd; decide
  · rw [if_neg hd] at h
    exact absurd rfl h

/-- Claim C4: for every accepted image the Optimizer re-encodes at jpeg
quality 85 with dimensions fitting within 1024×1024 and never exceeding
the source in either dimension; non-decodable source bytes fail with the
"Failed to process image" error. -/
theorem c4_optimizer_bounds (content : Content) :
    (∀ w h, content = .image w h → 0 < w → 0 < h →
       ∃ p, imageToBase64 content = .ok p ∧ p.quality = 85 ∧
         p.width ≤ 1024 ∧ p.height ≤ 1024 ∧ p.width ≤ w ∧ p.height ≤ h) ∧
    (∀ m, content = .notImage m →
       imageToBase64 content = .error ("Failed to process image: " ++ m)) := by
  constructor
  · intro w h hc hw hh
    subst hc
    have hb := sharpFitInside_le 1024 1024 w h (by omega) (by omega) hw hh
    exact ⟨_, rfl, rfl, hb.1, hb.2.1, hb.2.2.1, hb.2.2.2⟩
  · intro m hc
    subst hc
    rfl

theorem c4_optimizer_bounds_witness :
    ∃ p, imageToBase64 (.image 2000 1500) = .ok p ∧ p.quality = 85 ∧
      p.width ≤ 1024 ∧ p.height ≤ 1024 ∧ p.width ≤ 2000 ∧ p.height ≤ 1500 :=
  (c4_optimizer_bounds (.image 2000 1500)).1 2000 1500 rfl (by decide) (by decide)

/-- Claim C8: for every successful analysis the Materializer enhances the
transient input (resize within 2048×2048 without upscaling, sharpen,
brightness and saturation adjustment), encodes at quality 95, persists
under the freshly generated unique filename, and returns that filename
with the analysis text; a decode or write failure yields the
"Image processing failed" error. -/
theorem c8_materializer (content : Content) (uuid analysis : String)
    (writeErr : Option String) (ps : List (String × Artifact)) :
    (∀ w h, content = .image w h → 0 < w → 0 < h → writeErr = none →
       ("processed-" ++ uuid ++ ".jpg") ∉ ps.map Prod.fst →
       ∃ art,
         processImageWithAI content uuid analysis writeErr ps =
           .ok ({ filename := "processed-" ++ uuid ++ ".jpg", analysis := analysis },
                ("processed-" ++ uuid ++ ".jpg", art) :: ps) ∧
         (("processed-" ++ uuid ++ ".jpg", art) :: ps).lookup
             ("processed-" ++ uuid ++ ".jpg") = some art ∧
         art.width ≤ 2048 ∧ art.height ≤ 2048 ∧ art.width ≤ w ∧ art.height ≤ h ∧
         art.sharpened = true ∧ art.brightnessPct = 110 ∧ art.saturationPct = 120 ∧
         art.quality = 95) ∧
    (∀ m, content = .notImage m →
        processImageWithAI content uuid analysis writeErr ps =
          .error ("Image processing failed: " ++ m)) ∧
    (∀ w h m, content = .image w h → writeErr = some m →
        processImageWithAI content uuid analysis writeErr ps =
          .error ("Image processing failed: " ++ m)) := by
  refine ⟨?_, ?_, ?_⟩
  · intro w h hc hw hh hwe _hfresh
    subst hc
    subst hwe
    have hb := sharpFitInside_le 2048 2048 w h (by omega) (by omega) hw hh
    refine ⟨_, rfl, ?_, hb.1, hb.2.1, hb.2.2.1, hb.2.2.2, rfl, rfl, rfl, rfl⟩
    simp [List.lookup]
  · intro m hc
    subst hc
    rfl
  · intro w h m hc hwe
    subst hc
    subst hwe
    rfl

theorem c8_materializer_witness :
    ("processed-" ++ "u1" ++ ".jpg") ∉ ([] : List (String × Artifact)).map Prod.fst ∧
    (∃ art,
      processImageWithAI (.image 3000 1000) "u1" "plan" none [] =
        .ok ({ filename := "processed-" ++ "u1" ++ ".jpg", analysis := "plan" },
             ("processed-" ++ "u1" ++ ".jpg", art) :: []) ∧
      (("processed-" ++ "u1" ++ ".jpg", art) :: []).lookup
          ("processed-" ++ "u1" ++ ".jpg") = some art ∧
      art.width ≤ 2048 ∧ art.height ≤ 2048 ∧ art.width ≤ 3000 ∧ art.height ≤ 1000 ∧
      art.sharpened = true ∧ art.brightnessPct = 110 ∧ art.saturationPct = 120 ∧
      art.quality = 95) :=
  ⟨by simp, (c8_materializer (.image 3000 1000) "u1" "plan" none []).1 3000 1000 rfl
      (by decide) (by decide) rfl (by simp)⟩

/-- Claim C1: for every request in which an upload was stored in the
transient store (one accepted file, the fs.unlink primitive itself not
faulting), exactly one unlink call is issued, it removes the file, and
the transient file is absent when the request concludes — on the success
path and on each failure path alike. -/
theorem c1_transient_deleted_exactly_once (mt : String) (sz : Nat) (name : String)
    (content : Content) (o : Oracles) (env stack : String)
    (ps : List (String × Artifact))
    (hmt : startsWithImage mt = true) (hsz : sz ≤ maxFileSize)
    (h1 : o.unlinkFault1 = none) (h2 : o.unlinkFault2 = none) :
    (processRepairRequest (.withFile mt sz name content) o env stack ps).fileStored = true ∧
    (processRepairRequest (.withFile mt sz name content) o env stack ps).unlinkCalls = 1 ∧
    (processRepairRequest (.withFile mt sz name content) o env stack ps).deletions = 1 ∧
    (processRepairRequest (.withFile mt sz name content) o env stack ps).filePresent = false := by
  have hszn : ¬ (maxFileSize < sz) := Nat.not_lt.mpr hsz
  cases content with
  | notImage m =>
      simp [processRepairRequest, repairHandler, repairCatch, imageToBase64,
            hmt, hszn, h1, h2]
  | image w h =>
      cases hu : o.upstream <;> cases hw : o.writeErr <;>
        simp [processRepairRequest, repairHandler, repairCatch, imageToBase64,
              callOpenRouterAPI, processImageWithAI, hmt, hszn, h1, h2, hu, hw]

theorem c1_transient_deleted_exactly_once_witness :
    (processRepairRequest (.withFile "image/png" 3000 "a.png" (.image 10 10))
        ⟨.ok "advice", "u1", none, none, none⟩ "production" "tr" []).fileStored = true ∧
    (processRepairRequest (.withFile "image/png" 3000 "a.png" (.image 10 10))
        ⟨.ok "advice", "u1", none, none, none⟩ "production" "tr" []).unlinkCalls = 1 ∧
    (processRepairRequest (.withFile "image/png" 3000 "a.png" (.image 10 10))
        ⟨.ok "advice", "u1", none, none, none⟩ "production" "tr" []).deletions = 1 ∧
    (processRepairRequest (.withFile "image/png" 3000 "a.png" (.image 10 10))
        ⟨.ok "advice", "u1", none, none, none⟩ "production" "tr" []).filePresent = false :=
  c1_transient_deleted_exactly_once "image/png" 3000 "a.png" (.image 10 10)
    ⟨.ok "advice", "u1", none, none, none⟩ "production" "tr" []
    (by decide) (by decide) rfl rfl

/-- Claim C5: every fully successful pipeline run answers 200 with a JSON
body holding exactly the fields success (true), processedImageUrl
(pointing at the retrieval endpoint for the materialized artifact),
analysis, originalFilename and processedFilename. -/
theorem c5_success_response (mt : String) (sz : Nat) (name : String) (w h : Nat)
    (analysis : String) (o : Oracles) (env stack : String)
    (ps : List (String × Artifact))
    (hmt : startsWithImage mt = true) (hsz : sz ≤ maxFileSize)
    (hu : o.upstream = .ok analysis) (hw : o.writeErr = none)
    (h1 : o.unlinkFault1 = none) :
    (processRepairRequest (.withFile mt sz name (.image w h)) o env stack ps).response =
      { status := 200
        body := [("success", JVal.b true),
                 ("processedImageUrl",
                  JVal.s ("/api/processed/" ++ ("processed-" ++ o.uuid ++ ".jpg"))),
                 ("analysis", JVal.s analysis),
                 ("originalFilename", JVal.s name),
                 ("processedFilename", JVal.s ("processed-" ++ o.uuid ++ ".jpg"))] } := by
  have hszn : ¬ (maxFileSize < sz) := Nat.not_lt.mpr hsz
  simp [processRepairRequest, repairHandler, imageToBase64, callOpenRouterAPI,
        processImageWithAI, hmt, hszn, hu, hw, h1]

theorem c5_success_response_witness :
    (processRepairRequest (.withFile "image/jpeg" 42 "old.jpg" (.image 20 30))
        ⟨.ok "plan", "u2", none, none, none⟩ "production" "tr" []).response =
      { status := 200
        body := [("success", JVal.b true),
                 ("processedImageUrl",
                  JVal.s ("/api/processed/" ++ ("processed-" ++ "u2" ++ ".jpg"))),
                 ("analysis", JVal.s "plan"),
                 ("originalFilename", JVal.s "old.jpg"),
                 ("processedFilename", JVal.s ("processed-" ++ "u2" ++ ".jpg"))] } :=
  c5_success_response "image/jpeg" 42 "old.jpg" 20 30 "plan"
    ⟨.ok "plan", "u2", none, none, none⟩ "production" "tr" []
    (by decide) (by decide) rfl rfl rfl

/-- Claim C3: every external-call failure (non-success upstream status,
unparseable response shape, or an unfinished call) makes the endpoint
answer 500 with the catch-block body whose message carries the upstream
detail — for a non-success status the exact status and upstream body text
— and the transient input is still deleted. -/
theorem c3_external_failure (mt : String) (sz : Nat) (name : String) (w h : Nat)
    (o : Oracles) (env stack : String) (ps : List (String × Artifact))
    (hmt : startsWithImage mt = true) (hsz : sz ≤ maxFileSize)
    (h2 : o.unlinkFault2 = none)
    (hfail : ∀ c, o.upstream ≠ UpstreamOutcome.ok c) :
    (processRepairRequest (.withFile mt sz name (.image w h)) o env stack ps).response.status
        = 500 ∧
    (processRepairRequest (.withFile mt sz name (.image w h)) o env stack ps).deletions = 1 ∧
    (processRepairRequest (.withFile mt sz name (.image w h)) o env stack ps).filePresent
        = false ∧
    (∀ st b, o.upstream = .httpError st b →
        (processRepairRequest (.withFile mt sz name (.image w h)) o env stack ps).response.body
          = errorBody ("AI processing failed: OpenRouter API error: "
                       ++ toString st ++ " - " ++ b) env stack) ∧
    (∀ m, o.upstream = .parseError m →
        (processRepairRequest (.withFile mt sz name (.image w h)) o env stack ps).response.body
          = errorBody ("AI processing failed: " ++ m) env stack) ∧
    (∀ m, o.upstream = .netError m →
        (processRepairRequest (.withFile mt sz name (.image w h)) o env stack ps).response.body
          = errorBody ("AI processing failed: " ++ m) env stack) := by
  have hszn : ¬ (maxFileSize < sz) := Nat.not_lt.mpr hsz
  cases hu : o.upstream with
  | ok c => exact absurd hu (hfail c)
  | httpError st b =>
      simp [processRepairRequest, repairHandler, repairCatch, imageToBase64,
            callOpenRouterAPI, hmt, hszn, h2, hu]
  | parseError m =>
      simp [processRepairRequest, repairHandler, repairCatch, imageToBase64,
            callOpenRouterAPI, hmt, hszn, h2, hu]
  | netError m =>
      simp [processRepairRequest, repairHandler, repairCatch, imageToBase64,
            callOpenRouterAPI, hmt, hszn, h2, hu]

theorem c3_external_failure_witness :
    (processRepairRequest (.withFile "image/png" 7 "a.png" (.image 8 8))
        ⟨.httpError 503 "overloaded", "u3", none, none, none⟩ "production" "tr" []
      ).response.status = 500 ∧
    (processRepairRequest (.withFile "image/png" 7 "a.png" (.image 8 8))
        ⟨.httpError 503 "overloaded", "u3", none, none, none⟩ "production" "tr" []
      ).deletions = 1 ∧
    (processRepairRequest (.withFile "image/png" 7 "a.png" (.image 8 8))
        ⟨.httpError 503 "overloaded", "u3", none, none, none⟩ "production" "tr" []
      ).response.body
      = errorBody ("AI processing failed: OpenRouter API error: "
                   ++ toString 503 ++ " - " ++ "overloaded") "production" "tr" := by
  have h := c3_external_failure "image/png" 7 "a.png" 8 8
    ⟨.httpError 503 "overloaded", "u3", none, none, none⟩ "production" "tr" []
    (by decide) (by decide) rfl (by intro c hc; cases hc)
  exact ⟨h.1, h.2.1, h.2.2.2.1 503 "overloaded" rfl⟩

/-- A request with an accepted media type and size runs the route
handler on the stored file. -/
theorem processRepairRequest_accepted (mt : String) (sz : Nat) (name : String)
    (content : Content) (o : Oracles) (env stack : String)
    (ps : List (String × Artifact))
    (hmt : startsWithImage mt = true) (hsz : sz ≤ maxFileSize) :
    processRepairRequest (.withFile mt sz name content) o env stack ps =
      repairHandler name content o env stack ps := by
  simp [processRepairRequest, hmt, Nat.not_lt.mpr hsz]

/-- Any failure inside the try block of the repair handler makes the run
respond with the catch-block 500 response built from that first error's
message. -/
theorem stepFailure_response (mt : String) (sz : Nat) (name : String)
    (content : Content) (o : Oracles) (env stack : String)
    (ps : List (String × Artifact)) (m : String)
    (hmt : startsWithImage mt = true) (hsz : sz ≤ maxFileSize)
    (hfail : stepFailure content o = some m) :
    (processRepairRequest (.withFile mt sz name content) o env stack ps).response =
      { status := 500, body := errorBody m env stack } := by
  rw [processRepairRequest_accepted mt sz name content o env stack ps hmt hsz]
  obtain ⟨ups, uuid, werr, f1, f2⟩ := o
  cases content <;> cases ups <;> cases werr <;> cases f1 <;>
    simp_all [stepFailure, repairHandler, repairCatch,
              imageToBase64, callOpenRouterAPI, processImageWithAI]

/-- Claim C9: every pipeline error is caught at the endpoint boundary and
mapped to a 500 response whose JSON body carries an error field and a
message field, with stack detail included only outside production mode. -/
theorem c9_error_boundary (mt : String) (sz : Nat) (name : String)
    (content : Content) (o : Oracles) (env stack : String)
    (ps : List (String × Artifact)) (m : String)
    (hmt : startsWithImage mt = true) (hsz : sz ≤ maxFileSize)
    (hfail : stepFailure content o = some m) :
    (processRepairRequest (.withFile mt sz name content) o env stack ps).response.status
        = 500 ∧
    (processRepairRequest (.withFile mt sz name content) o env stack ps).response.body.lookup
        "error" = some (JVal.s "Image processing failed") ∧
    (processRepairRequest (.withFile mt sz name content) o env stack ps).response.body.lookup
        "message" = some (JVal.s m) ∧
    ((processRepairRequest (.withFile mt sz name content) o env stack ps).response.body.lookup
        "details" ≠ none → env ≠ "production") := by
  have hr := stepFailure_response mt sz name content o env stack ps m hmt hsz hfail
  rw [hr]
  exact ⟨rfl, errorBody_lookup_error m env stack, errorBody_lookup_message m env stack,
         errorBody_details_nonprod m env stack⟩

theorem c9_error_boundary_witness :
    (processRepairRequest (.withFile "image/gif" 9 "b.gif" (.notImage "bad magic"))
        ⟨.ok "x", "u4", none, none, none⟩ "production" "tr" []).response.status = 500 ∧
    (processRepairRequest (.withFile "image/gif" 9 "b.gif" (.notImage "bad magic"))
        ⟨.ok "x", "u4", none, none, none⟩ "production" "tr" []).response.body.lookup
        "error" = some (JVal.s "Image processing failed") ∧
    (processRepairRequest (.withFile "image/gif" 9 "b.gif" (.notImage "bad magic"))
        ⟨.ok "x", "u4", none, none, none⟩ "production" "tr" []).response.body.lookup
        "message" = some (JVal.s ("Failed to process image: " ++ "bad magic")) ∧
    ((processRepairRequest (.withFile "image/gif" 9 "b.gif" (.notImage "bad magic"))
        ⟨.ok "x", "u4", none, none, none⟩ "production" "tr" []).response.body.lookup
        "details" ≠ none → "production" ≠ "production") :=
  c9_error_boundary "image/gif" 9 "b.gif" (.notImage "bad magic")
    ⟨.ok "x", "u4", none, none, none⟩ "production" "tr" []
    ("Failed to process image: " ++ "bad magic") (by decide) (by decide) rfl

/-- Claim C10: when the catch-block cleanup unlink itself fails, the
failure is swallowed: the response is still the 500 body carrying the
original pipeline error's message, while the transient file survives. -/
theorem c10_cleanup_failure_swallowed (mt : String) (sz : Nat) (name : String)
    (content : Content) (o : Oracles) (env stack : String)
    (ps : List (String × Artifact)) (m fm : String)
    (hmt : startsWithImage mt = true) (hsz : sz ≤ maxFileSize)
    (hfail : stepFailure content o = some m) (h2 : o.unlinkFault2 = some fm) :
    (processRepairRequest (.withFile mt sz name content) o env stack ps).response =
      { status := 500, body := errorBody m env stack } ∧
    (processRepairRequest (.withFile mt sz name content) o env stack ps).filePresent
        = true ∧
    (processRepairRequest (.withFile mt sz name content) o env stack ps).deletions = 0 := by
  refine ⟨stepFailure_response mt sz name content o env stack ps m hmt hsz hfail, ?_, ?_⟩ <;>
  · rw [processRepairRequest_accepted mt sz name content o env stack ps hmt hsz]
    obtain ⟨ups, uuid, werr, f1, f2⟩ := o
    cases content <;> cases ups <;> cases werr <;> cases f1 <;>
      simp_all [stepFailure, repairHandler, repairCatch,
                imageToBase64, callOpenRouterAPI, processImageWithAI]

theorem c10_cleanup_failure_swallowed_witness :
    (processRepairRequest (.withFile "image/png" 9 "c.png" (.image 5 5))
        ⟨.netError "socket hang up", "u5", none, none, some "EBUSY"⟩
        "production" "tr" []).response =
      { status := 500,
        body := errorBody ("AI processing failed: " ++ "socket hang up")
                  "production" "tr" } ∧
    (processRepairRequest (.withFile "image/png" 9 "c.png" (.image 5 5))
        ⟨.netError "socket hang up", "u5", none, none, some "EBUSY"⟩
        "production" "tr" []).filePresent = true ∧
    (processRepairRequest (.withFile "image/png" 9 "c.png" (.image 5 5))
        ⟨.netError "socket hang up", "u5", none, none, some "EBUSY"⟩
        "production" "tr" []).deletions = 0 :=
  c10_cleanup_failure_swallowed "image/png" 9 "c.png" (.image 5 5)
    ⟨.netError "socket hang up", "u5", none, none, some "EBUSY"⟩
    "production" "tr" [] ("AI processing failed: " ++ "socket hang up") "EBUSY"
    (by decide) (by decide) rfl rfl

/-- Claim C7: the retrieval endpoint serves an existing artifact's stored
bytes with Content-Type image/jpeg and a cache directive, and answers a
404 JSON NotFound body when no such artifact exists. -/
theorem c7_retrieval (ps : List (String × Artifact)) (filename : String) :
    (∀ a, ps.lookup filename = some a →
        getProcessed ps filename =
          { status := 200
            contentType := some "image/jpeg"
            cacheControl := some "public, max-age=86400"
            sentArtifact := some a
            jsonBody := [] }) ∧
    (ps.lookup filename = none →
        getProcessed ps filename =
          { status := 404
            contentType := none
            cacheControl := none
            sentArtifact := none
            jsonBody := [("error", JVal.s "Image not found"),
                         ("message", JVal.s "The requested processed image does not exist")] }) := by
  constructor
  · intro a hl
    simp [getProcessed, hl]
  · intro hl
    simp [getProcessed, hl]

theorem c7_retrieval_witness :
    getProcessed [] "nope.jpg" =
      { status := 404
        contentType := none
        cacheControl := none
        sentArtifact := none
        jsonBody := [("error", JVal.s "Image not found"),
                     ("message", JVal.s "The requested processed image does not exist")] } :=
  (c7_retrieval [] "nope.jpg").2 rfl

/-- Claim C2 counterexample: a non-image upload (declared media type
"text/plain") is answered with status 500 — the fileFilter's plain Error
is not a multer.MulterError, so the error middleware's generic branch
applies — hence not with a 400-class response as the claim states.  No
transient file is stored. -/
theorem c2_counterexample :
    (processRepairRequest (.withFile "text/plain" 5 "a.txt" (.notImage "bad"))
        ⟨.ok "x", "u6", none, none, none⟩ "production" "tr" []).response.status = 500 ∧
    ¬ (400 ≤ (processRepairRequest (.withFile "text/plain" 5 "a.txt" (.notImage "bad"))
          ⟨.ok "x", "u6", none, none, none⟩ "production" "tr" []).response.status ∧
       (processRepairRequest (.withFile "text/plain" 5 "a.txt" (.notImage "bad"))
          ⟨.ok "x", "u6", none, none, none⟩ "production" "tr" []).response.status < 500) ∧
    (processRepairRequest (.withFile "text/plain" 5 "a.txt" (.notImage "bad"))
        ⟨.ok "x", "u6", none, none, none⟩ "production" "tr" []).fileStored = false := by
  decide

/-- Claim C2 as amended: every upload whose declared media type does not
start with "image/" is rejected with the 500 "Internal server error" JSON
response (the fileFilter error is not a MulterError, so the generic
branch of the error middleware answers), and no file for that upload is
stored in or remains in the transient store. -/
theorem c2_amended_nonimage_reject (mt : String) (sz : Nat) (name : String)
    (content : Content) (o : Oracles) (env stack : String)
    (ps : List (String × Artifact))
    (hmt : startsWithImage mt = false) :
    (processRepairRequest (.withFile mt sz name content) o env stack ps).response.status
        = 500 ∧
    (processRepairRequest (.withFile mt sz name content) o env stack ps).response.body =
      [("error", JVal.s "Internal server error"),
       ("message", JVal.s "Something went wrong processing your request")] ∧
    (processRepairRequest (.withFile mt sz name content) o env stack ps).fileStored
        = false ∧
    (processRepairRequest (.withFile mt sz name content) o env stack ps).filePresent
        = false := by
  simp [processRepairRequest, hmt]

theorem c2_amended_nonimage_reject_witness :
    (processRepairRequest (.withFile "application/pdf" 5 "a.pdf" (.notImage "bad"))
        ⟨.ok "x", "u7", none, none, none⟩ "production" "tr" []).response.status = 500 ∧
    (processRepairRequest (.withFile "application/pdf" 5 "a.pdf" (.notImage "bad"))
        ⟨.ok "x", "u7", none, none, none⟩ "production" "tr" []).response.body =
      [("error", JVal.s "Internal server error"),
       ("message", JVal.s "Something went wrong processing your request")] ∧
    (processRepairRequest (.withFile "application/pdf" 5 "a.pdf" (.notImage "bad"))
        ⟨.ok "x", "u7", none, none, none⟩ "production" "tr" []).fileStored = false ∧
    (processRepairRequest (.withFile "application/pdf" 5 "a.pdf" (.notImage "bad"))
        ⟨.ok "x", "u7", none, none, none⟩ "production" "tr" []).filePresent = false :=
  c2_amended_nonimage_reject "application/pdf" 5 "a.pdf" (.notImage "bad")
    ⟨.ok "x", "u7", none, none, none⟩ "production" "tr" [] (by decide)

/-- Claim C6 counterexample: an upload larger than 10 MB whose declared
media type is not image/* is rejected by the fileFilter, not by the size
limit: it is answered 500 "Internal server error", not the claimed 400
"File too large". -/
theorem c6_counterexample :
    (processRepairRequest
        (.withFile "text/plain" (10 * 1024 * 1024 + 1) "big.txt" (.notImage "bad"))
        ⟨.ok "x", "u8", none, none, none⟩ "production" "tr" []).response.status = 500 ∧
    ¬ ((processRepairRequest
          (.withFile "text/plain" (10 * 1024 * 1024 + 1) "big.txt" (.notImage "bad"))
          ⟨.ok "x", "u8", none, none, none⟩ "production" "tr" []).response.status = 400) ∧
    (processRepairRequest
        (.withFile "text/plain" (10 * 1024 * 1024 + 1) "big.txt" (.notImage "bad"))
        ⟨.ok "x", "u8", none, none, none⟩ "production" "tr" []).response.body.lookup "error"
      ≠ some (JVal.s "File too large") := by
  decide

/-- Claim C6 as amended: every upload with a declared image/* media type
larger than 10 MB (10 * 1024 * 1024 bytes) is rejected with the 400
"File too large" response via the MulterError LIMIT_FILE_SIZE branch,
before any optimization step runs. -/
theorem c6_amended_size_limit (mt : String) (sz : Nat) (name : String)
    (content : Content) (o : Oracles) (env stack : String)
    (ps : List (String × Artifact))
    (hmt : startsWithImage mt = true) (hsz : maxFileSize < sz) :
    (processRepairRequest (.withFile mt sz name content) o env stack ps).response.status
        = 400 ∧
    (processRepairRequest (.withFile mt sz name content) o env stack ps).response.body =
      [("error", JVal.s "File too large"),
       ("message", JVal.s "Image file must be smaller than 10MB")] ∧
    (processRepairRequest (.withFile mt sz name content) o env stack ps).optimizeRan
        = false := by
  simp [processRepairRequest, hmt, hsz]

theorem c6_amended_size_limit_witness :
    (processRepairRequest
        (.withFile "image/png" (10 * 1024 * 1024 + 1) "big.png" (.image 9000 9000))
        ⟨.ok "x", "u9", none, none, none⟩ "production" "tr" []).response.status = 400 ∧
    (processRepairRequest
        (.withFile "image/png" (10 * 1024 * 1024 + 1) "big.png" (.image 9000 9000))
        ⟨.ok "x", "u9", none, none, none⟩ "production" "tr" []).response.body =
      [("error", JVal.s "File too large"),
       ("message", JVal.s "Image file must be smaller than 10MB")] ∧
    (processRepairRequest
        (.withFile "image/png" (10 * 1024 * 1024 + 1) "big.png" (.image 9000 9000))
        ⟨.ok "x", "u9", none, none, none⟩ "production" "tr" []).optimizeRan = false :=
  c6_amended_size_limit "image/png" (10 * 1024 * 1024 + 1) "big.png" (.image 9000 9000)
    ⟨.ok "x", "u9", none, none, none⟩ "production" "tr" [] (by decide) (by decide)

end PictureRepair
